import Mathlib

/-!
Shallow embedding of the lollobet server core (src/server.js): the TTL
freshness cache, the fixture aggregation (day view, league list, fixtures
fetch with ±1-day fallback), the fixture-detail enrichment, and the
Poisson + injury-adjustment prediction engine.

JS numbers are modelled as exact rationals (ℚ); timestamps as ℕ
milliseconds; upstream calls as explicit oracle arguments of type
`Except Unit _` (`.error` = the awaited call threw) or `Option _`
(a possibly-absent response body).  A JS `null`/`undefined` field is an
`Option.none`.
-/

namespace LolloBet

/- =========================================================
   Freshness cache (server.js lines 35-45)

   getCache(m, k, ttl): absent key → null; an entry older than ttl
   (strictly: Date.now() - h.ts > ttl) is deleted and null returned;
   otherwise the stored data is returned.
   setCache(m, k, d): stores {ts: Date.now(), data: d}.

   A cache map is modelled as a function from keys to optional
   (timestamp, data) entries; getCache returns the looked-up value
   together with the possibly-updated map (the lazy eviction).
   ========================================================= -/

def CacheMap (α : Type) : Type := String → Option (Nat × α)

def setCache {α : Type} (m : CacheMap α) (k : String) (now : Nat) (d : α) :
    CacheMap α :=
  fun k' => if k' = k then some (now, d) else m k'

def getCache {α : Type} (m : CacheMap α) (k : String) (ttl now : Nat) :
    Option α × CacheMap α :=
  match m k with
  | none => (none, m)
  | some (ts, d) =>
      if now - ts > ttl then
        (none, fun k' => if k' = k then none else m k')
      else
        (some d, m)

/- =========================================================
   Prediction engine pieces (server.js lines 214-300)
   ========================================================= -/

/-- Injury impact for one side (line 260):
    `imp = ((arr && arr.length) ? arr.length : 0) * 0.08`
    i.e. the number of that side's injury records times 0.08. -/
def imp (n : Nat) : ℚ := (n : ℚ) * (8 / 100)

/-- Outcome selection (lines 291-294): `pick` starts as DRAW, is
    overwritten with HOME when `prob.home === conf` and then with AWAY
    when `prob.away === conf`, where `conf` is the max of the three
    rounded percentages. -/
def pickOutcome (home draw away : ℚ) : String :=
  let conf := max home (max draw away)
  let p0 := "DRAW"
  let p1 := if home = conf then "HOME" else p0
  let p2 := if away = conf then "AWAY" else p1
  p2


/- =========================================================
   Fixture data (raw upstream fixture records)
   ========================================================= -/

/-- A raw upstream fixture record, restricted to the fields the server
    reads.  A JS-missing field is `none`; a missing/falsy league id is
    modelled as `0` (the code skips falsy ids with `if (!lid) continue`
    and treats them as falsy in the day-view filter). -/
structure RawFixture where
  fixtureId : Nat
  date : Option String
  leagueId : Nat
  leagueName : Option String
  country : Option String
  season : Option Nat
  homeName : Option String
  awayName : Option String
  homeId : Option Nat
  awayId : Option Nat
deriving DecidableEq, Repr

/- =========================================================
   fetchFixturesForDay (server.js lines 76-100)

   First query with an exact date filter (a thrown call is caught and
   leaves the empty list); if the list is empty, query again with
   from = day-1, to = day+1 (isoDay of ±86400000 ms, i.e. exactly one
   UTC day), again absorbing a thrown call into the empty list.
   Days are modelled as integers so that the ±1-day window is day-1..day+1.
   ========================================================= -/

inductive FixturesQuery
  | byDate (day : Int)
  | byRange (lo hi : Int)

def fetchFixturesForDay (api : FixturesQuery → Except Unit (List RawFixture))
    (day : Int) : List RawFixture :=
  let fixtures := match api (.byDate day) with
    | .ok l => l
    | .error _ => []
  if fixtures.length = 0 then
    match api (.byRange (day - 1) (day + 1)) with
    | .ok l => l
    | .error _ => []   -- the catch leaves `fixtures`, which is [] here
  else
    fixtures

/- =========================================================
   Team statistics and baseline lambdas (server.js lines 241-246)
   ========================================================= -/

/-- A team-statistics snapshot: the four average-goals fields the
    prediction reads (`goals.for.average.home`, `goals.against.average.home`,
    `goals.for.average.away`, `goals.against.average.away`). -/
structure TeamStats where
  forHome : Option ℚ
  againstHome : Option ℚ
  forAway : Option ℚ
  againstAway : Option ℚ
deriving DecidableEq, Repr

/-- JS `Number(x) || fb`: a missing field gives NaN (falsy) and a present
    zero is falsy, so both fall back to `fb`. -/
def numOr : Option ℚ → ℚ → ℚ
  | none, fb => fb
  | some v, fb => if v = 0 then fb else v

/-- `hGF = Number(H?.goals?.for?.average?.home) || 1.2`; the snapshot
    itself may be absent (`H?.` chains to NaN). -/
def hGF (H : Option TeamStats) : ℚ := numOr (H.bind TeamStats.forHome) (12/10)

def hGA (H : Option TeamStats) : ℚ := numOr (H.bind TeamStats.againstHome) 1

def aGF (A : Option TeamStats) : ℚ := numOr (A.bind TeamStats.forAway) (11/10)

def aGA (A : Option TeamStats) : ℚ := numOr (A.bind TeamStats.againstAway) (11/10)

/-- `lambdaHome = (hGF + aGA) / 2`, `lambdaAway = (aGF + hGA) / 2`
    (lines 245-246), before the injury adjustment. -/
def baseLambdas (H A : Option TeamStats) : ℚ × ℚ :=
  ((hGF H + aGA A) / 2, (aGF A + hGA H) / 2)

/- =========================================================
   Day view (server.js lines 139-174)
   ========================================================= -/

/-- The result of JS `Number(string)`: NaN for a non-numeric string,
    otherwise a number. -/
inductive JsNum
  | nan
  | num (q : ℚ)
deriving DecidableEq, Repr

/-- JS truthiness of the handler variable `leagueId : null | NaN | number`
    (null when the query parameter is absent): null, NaN and 0 are falsy. -/
def truthy : Option JsNum → Bool
  | none => false
  | some .nan => false
  | some (.num q) => decide (q ≠ 0)

/-- JS number-to-string coercion, used only to build the cache-key suffix
    for a truthy (hence non-NaN, non-zero) league filter. -/
def jsNumToString : JsNum → String
  | .nan => "NaN"
  | .num q => toString q

/-- One entry of the day view (the `out` mapping, lines 150-166). -/
structure DayMatch where
  id : String
  home : Option String
  away : Option String
  homeId : Option Nat
  awayId : Option Nat
  league : Option String
  leagueId : Nat
  season : Option Nat
  country : Option String
  time : Option String
  dateISO : Option String
  lineupsConfirmed : Bool
  availability : List Unit
deriving DecidableEq, Repr

def mkDayMatch (f : RawFixture) : DayMatch where
  id := toString f.fixtureId
  home := f.homeName
  away := f.awayName
  homeId := f.homeId
  awayId := f.awayId
  league := f.leagueName
  leagueId := f.leagueId
  season := f.season
  -- `f?.league?.country || null`: the empty string is falsy and maps to null
  country := match f.country with
    | some c => if c = "" then none else some c
    | none => none
  time := f.date
  dateISO := f.date
  lineupsConfirmed := false
  availability := []

/-- The /api/day/:date handler on a given fixture list: returns the cache
    key (`"D_" + day + (leagueId ? "_L" + leagueId : "")`), the mapped
    match list (filtered by league id only when the parsed filter is
    truthy), and `meta.leagueFilter = leagueId || null`. -/
def getDayView (fixtures : List RawFixture) (day : String)
    (league : Option JsNum) : String × List DayMatch × Option JsNum :=
  let key := "D_" ++ day ++
    (if truthy league then
       "_L" ++ (match league with | some j => jsNumToString j | none => "")
     else "")
  let filtered := if truthy league then
      fixtures.filter (fun f => match league with
        | some (.num q) => decide ((f.leagueId : ℚ) = q)
        | _ => false)
    else fixtures
  (key, filtered.map mkDayMatch, if truthy league then league else none)



/- =========================================================
   Injury records and the fixture-details handler
   (server.js lines 179-209)
   ========================================================= -/

/-- An upstream injury record, restricted to the team id the server reads;
    `0` models a missing/falsy `it?.team?.id` (skipped by the grouping). -/
structure Injury where
  teamId : Nat
deriving DecidableEq, Repr

/-- JS truthiness of the cached injuries value `cInj` (line 184): getCache
    yields null on a miss/stale entry (falsy) and the stored array on a
    hit — an array, even an empty one, is truthy. -/
def injTruthy : Option (List Injury) → Bool
  | none => false
  | some _ => true

/-- The JS test `cLin !== undefined` (line 184): getCache returns null on
    a miss and the cached boolean on a hit, never undefined, so the test
    holds for every possible value of cLin. -/
def linNotUndefined : Option Bool → Bool
  | _ => true

/-- The /api/fixture/:id/details handler body, as a function of the two
    cache lookups and the two upstream fetches.  On the cached branch it
    responds `{injuries: cInj, lineupsConfirmed: cLin}` directly (cLin may
    be the null cache miss); otherwise it fetches both, absorbing a failed
    fetch into `[]` / `false`, and `lineupsConfirmed` is the non-emptiness
    of the lineups list.  The cache writes on the fetch branch are not part
    of the response and are omitted here. -/
def getFixtureDetails (cInj : Option (List Injury)) (cLin : Option Bool)
    (fetchInj : Except Unit (List Injury))
    (fetchLin : Except Unit (List Unit)) :
    List Injury × Option Bool :=
  if injTruthy cInj && linNotUndefined cLin then
    (cInj.getD [], cLin)
  else
    let injuries := match fetchInj with
      | .ok l => l
      | .error _ => []
    let lineupsConfirmed := match fetchLin with
      | .ok arr => decide (arr.length > 0)
      | .error _ => false
    (injuries, some lineupsConfirmed)



/- =========================================================
   Poisson scoreline enumeration (server.js lines 268-289)

   pois(l, k) = exp(-l) * l^k / fact(k).  The strictly positive factor
   exp(-lambdaHome) * exp(-lambdaAway) is common to every one of the 121
   scoreline terms, hence to pH, pD, pA and to tot = pH + pD + pA, and
   cancels exactly in the normalized percentages pX / tot * 100.  The
   embedding therefore works with the weight l^k / fact(k) and yields the
   same normalized triple in exact arithmetic.
   ========================================================= -/

/-- The recursive factorial helper (line 268):
    `fact = (n) => (n <= 1 ? 1 : n * fact(n - 1))`. -/
def fact : Nat → Nat
  | 0 => 1
  | 1 => 1
  | n + 2 => (n + 2) * fact (n + 1)

/-- The Poisson weight `l^k / fact(k)` — `pois` without its exp(-l)
    factor (see the section comment). -/
def wpois (l : ℚ) (k : Nat) : ℚ := l ^ k / (fact k : ℚ)

/-- Accumulated home-win bucket: scorelines with gh > ga over the 0..10
    double loop. -/
def bucketH (lh la : ℚ) : ℚ :=
  ∑ gh ∈ Finset.range 11, ∑ ga ∈ Finset.range 11,
    if ga < gh then wpois lh gh * wpois la ga else 0

/-- Accumulated draw bucket: scorelines with gh = ga. -/
def bucketD (lh la : ℚ) : ℚ :=
  ∑ gh ∈ Finset.range 11, ∑ ga ∈ Finset.range 11,
    if gh = ga then wpois lh gh * wpois la ga else 0

/-- Accumulated away-win bucket: the remaining scorelines, gh < ga. -/
def bucketA (lh la : ℚ) : ℚ :=
  ∑ gh ∈ Finset.range 11, ∑ ga ∈ Finset.range 11,
    if gh < ga then wpois lh gh * wpois la ga else 0

/-- `tot = pH + pD + pA || 1` (line 281): the defensive zero guard. -/
def totOr1 (lh la : ℚ) : ℚ :=
  let tot := bucketH lh la + bucketD lh la + bucketA lh la
  if tot = 0 then 1 else tot

/-- `+v.toFixed(1)`: rounding to one decimal place. -/
def round1 (x : ℚ) : ℚ := (round (x * 10) : ℚ) / 10

/-- `+v.toFixed(2)`: rounding to two decimal places. -/
def round2 (x : ℚ) : ℚ := (round (x * 100) : ℚ) / 100

/-- The normalized, rounded percentage triple (home, draw, away) of
    lines 282-285. -/
def probTriple (lh la : ℚ) : ℚ × ℚ × ℚ :=
  let tot := totOr1 lh la
  (round1 (bucketH lh la / tot * 100),
   round1 (bucketD lh la / tot * 100),
   round1 (bucketA lh la / tot * 100))



/- =========================================================
   predict (server.js lines 214-300)
   ========================================================= -/

/-- The fields of the resolved fixture record that predict reads. -/
structure Fixture where
  id : Nat
  leagueId : Nat
  season : Nat
  homeId : Nat
  awayId : Nat
deriving DecidableEq, Repr

/-- Grouping the injury list by team id (lines 253-259, skipping falsy
    team ids) followed by `by[tid].length`: the number of records whose
    team id is `tid`. -/
def injCount (l : List Injury) (tid : Nat) : Nat :=
  (l.filter (fun it => it.teamId ≠ 0 && it.teamId == tid)).length

/-- The JSON body of a successful prediction (line 296 with the `prob`
    object of lines 282-289). -/
structure Prediction where
  fixtureId : Nat
  probHome : ℚ
  probDraw : ℚ
  probAway : ℚ
  lambdaHome : ℚ
  lambdaAway : ℚ
  aisHome : ℚ
  aisAway : ℚ
  pick : String
deriving DecidableEq, Repr

/-- The full prediction computation once the fixture, the two (possibly
    absent) statistics snapshots and the injuries-fetch outcome are at
    hand: baseline lambdas with fallbacks, injury impact (zero for both
    sides when the injuries call threw — the empty catch of line 263),
    the 0.1 floor, the Poisson triple and the pick. -/
def computePrediction (f : Fixture) (H A : Option TeamStats)
    (injRes : Except Unit (List Injury)) : Prediction :=
  let lam0 := baseLambdas H A
  let ais : ℚ × ℚ := match injRes with
    | .error _ => (0, 0)
    | .ok l => (imp (injCount l f.homeId), imp (injCount l f.awayId))
  let lambdaHome := max (1/10) (lam0.1 * (1 - ais.1))
  let lambdaAway := max (1/10) (lam0.2 * (1 - ais.2))
  let p := probTriple lambdaHome lambdaAway
  { fixtureId := f.id
    probHome := p.1
    probDraw := p.2.1
    probAway := p.2.2
    lambdaHome := round2 lambdaHome
    lambdaAway := round2 lambdaAway
    aisHome := round2 ais.1
    aisAway := round2 ais.2
    pick := pickOutcome p.1 p.2.1 p.2.2 }

inductive PredictError
  | notFound
  | internal
deriving DecidableEq, Repr

/-- `let H = getCache(...); if (!H) { H = (await ...).data?.response }`
    (lines 228-234): a truthy cached snapshot skips the fetch; otherwise
    the fetch is awaited, and its throw — there is no try/catch around it
    — escapes to the handler's top-level catch. -/
def resolveStats (cached : Option TeamStats)
    (fetch : Except Unit (Option TeamStats)) : Except Unit (Option TeamStats) :=
  match cached with
  | some h => .ok (some h)
  | none => fetch

/-- The /api/predict/:fixtureId handler as a function of its upstream
    call outcomes: the fixture lookup (a throw → top-level catch → 500;
    an empty response → 404), the two statistics resolutions, and the
    injuries fetch (absorbed). -/
def predict (fx : Except Unit (Option Fixture)) (cH cA : Option TeamStats)
    (fH fA : Except Unit (Option TeamStats))
    (injRes : Except Unit (List Injury)) : Except PredictError Prediction :=
  match fx with
  | .error _ => .error .internal
  | .ok none => .error .notFound
  | .ok (some f) =>
    match resolveStats cH fH with
    | .error _ => .error .internal
    | .ok H =>
      match resolveStats cA fA with
      | .error _ => .error .internal
      | .ok A => .ok (computePrediction f H A injRes)



/- =========================================================
   League summaries (server.js lines 105-134)
   ========================================================= -/

/-- One league summary `{ id, name, country, season }` (line 121). -/
structure LeagueSummary where
  id : Nat
  name : Option String
  country : Option String
  season : Option Nat
deriving DecidableEq, Repr

def mkLeague (f : RawFixture) : LeagueSummary :=
  ⟨f.leagueId, f.leagueName, f.country, f.season⟩

/-- The deduplication key `lid + "_" + season` (line 120), as the pair it
    encodes. -/
def leagueKey (x : LeagueSummary) : Nat × Option Nat := (x.id, x.season)

/-- The grouping loop of lines 113-122: skip fixtures with a falsy league
    id, key by (leagueId, season), keep the first-seen record per key
    (the Map preserves insertion order and `m.set` only runs on a fresh
    key). -/
def dedupLeagues : List RawFixture → List (Nat × Option Nat) → List LeagueSummary
  | [], _ => []
  | f :: rest, seen =>
    if f.leagueId = 0 then dedupLeagues rest seen
    else if (f.leagueId, f.season) ∈ seen then dedupLeagues rest seen
    else mkLeague f :: dedupLeagues rest ((f.leagueId, f.season) :: seen)

/-- The sort comparator of lines 124-126 as an at-most relation: country
    first (a missing country compares as ""), league name (same rule) as
    the tie-break.  `localeCompare` is modelled as lexicographic string
    comparison, and `leagueLE a b` states that the comparator does not
    place `a` strictly after `b`. -/
def leagueLE (a b : LeagueSummary) : Bool :=
  decide (a.country.getD "" < b.country.getD "") ||
  (decide (a.country.getD "" = b.country.getD "") &&
   decide (a.name.getD "" ≤ b.name.getD ""))

/-- The /api/leagues/:date payload's league list on a given day's
    fixtures (lines 113-127): group, then sort.  `Array.prototype.sort`
    is a stable sort, modelled by the (stable) mergeSort. -/
def buildLeaguesForDay (fixtures : List RawFixture) : List LeagueSummary :=
  (dedupLeagues fixtures []).mergeSort leagueLE


end LolloBet

open LolloBet

/-- C4: a get at time t' after a set at time t returns the stored value
    exactly when at most ttl has elapsed; a strictly-stale get returns
    absent and evicts the entry, so a second get at any later time also
    returns absent. -/
theorem cache_ttl_semantics {α : Type} (m : CacheMap α) (k : String)
    (ttl t t' : Nat) (d : α) :
    (getCache (setCache m k t d) k ttl t').1
      = (if t' - t ≤ ttl then some d else none) ∧
    (getCache (setCache m k t d) k ttl t').2 k
      = (if t' - t ≤ ttl then some (t, d) else none) ∧
    ∀ t'', (getCache ((getCache (setCache m k t d) k ttl t').2) k ttl t'').1
      = (if t' - t ≤ ttl then (if t'' - t ≤ ttl then some d else none)
         else none) := by
  have hk : setCache m k t d k = some (t, d) := by simp [setCache]
  by_cases hfresh : t' - t ≤ ttl
  · rw [if_pos hfresh]
    have h1 : getCache (setCache m k t d) k ttl t' = (some d, setCache m k t d) := by
      simp only [getCache, hk]
      rw [if_neg (by omega)]
    refine ⟨by rw [h1],
      by rw [h1]; show setCache m k t d k = _; rw [hk, if_pos hfresh],
      fun t'' => ?_⟩
    rw [if_pos hfresh, h1]
    by_cases h2 : t'' - t ≤ ttl
    · rw [if_pos h2]
      simp only [getCache, hk]
      rw [if_neg (by omega)]
    · rw [if_neg h2]
      simp only [getCache, hk]
      rw [if_pos (by omega)]
  · rw [if_neg hfresh]
    have h1 : getCache (setCache m k t d) k ttl t'
        = (none, fun k' => if k' = k then none else setCache m k t d k') := by
      simp only [getCache, hk]
      rw [if_pos (by omega)]
    refine ⟨by rw [h1], by rw [h1, if_neg hfresh]; simp, fun t'' => ?_⟩
    rw [if_neg hfresh, h1]
    simp [getCache]

/-- C3 counterexample: with 13 injury records the impact is
    13 * 0.08 = 1.04, which is not < 1, so the impact scalar does not lie
    in [0, 1) for every record count. -/
theorem imp_not_lt_one_at_13 : ¬ (imp 13 < 1) := by
  norm_num [imp]

/-- C3 amended: the injury-impact scalar is always ≥ 0, and it lies in
    [0, 1) exactly when the side has at most 12 injury records; it is
    uncapped and reaches ≥ 1 from 13 records on. -/
theorem imp_range (n : Nat) : 0 ≤ imp n ∧ (imp n < 1 ↔ n ≤ 12) := by
  constructor
  · rw [imp]
    positivity
  · rw [imp]
    constructor
    · intro h
      by_contra hn
      push_neg at hn
      have h13 : (13 : ℚ) ≤ (n : ℚ) := by exact_mod_cast hn
      nlinarith
    · intro h
      have h' : (n : ℚ) ≤ 12 := by exact_mod_cast h
      nlinarith

/-- C5: with the overwrite order DRAW → HOME → AWAY, a tie between the
    home and away probabilities at the maximum resolves to AWAY. -/
theorem pick_tie_away (home draw away : ℚ) (heq : home = away)
    (hmax : draw ≤ home) : pickOutcome home draw away = "AWAY" := by
  have hconf : max home (max draw away) = away := by
    subst heq
    simp [max_eq_left hmax, max_eq_right hmax, max_self]
  simp [pickOutcome, hconf]

/-- Witness for C5 at concrete percentages 40.0 / 20.0 / 40.0. -/
theorem pick_tie_away_witness :
    (40 : ℚ) = 40 ∧ (20 : ℚ) ≤ 40 ∧ pickOutcome 40 20 40 = "AWAY" :=
  ⟨rfl, by norm_num, pick_tie_away 40 20 40 rfl (by norm_num)⟩

/-- C8: fetchFixturesForDay returns the exact-date result when it is
    non-empty; when the exact-date call fails or yields zero records, it
    returns the ±1-day range result (with a failed range call giving the
    final empty list), and the range query is exactly day-1 .. day+1.
    It never raises: it is a total function of the two oracle results. -/
theorem fetchFixturesForDay_fallback
    (api : FixturesQuery → Except Unit (List RawFixture)) (day : Int) :
    (∀ l, api (.byDate day) = .ok l → l ≠ [] →
      fetchFixturesForDay api day = l) ∧
    ((api (.byDate day) = .ok [] ∨ api (.byDate day) = .error ()) →
      fetchFixturesForDay api day
        = (match api (.byRange (day - 1) (day + 1)) with
           | .ok l => l
           | .error _ => [])) := by
  constructor
  · intro l hok hne
    simp only [fetchFixturesForDay, hok]
    rw [if_neg (by simpa using hne)]
  · intro hzero
    rcases hzero with h | h <;> simp [fetchFixturesForDay, h]

/-- Witness for C8: an upstream failing on the exact date and returning
    one fixture for the ±1-day range yields that fixture list. -/
theorem fetchFixturesForDay_fallback_witness_app :
    fetchFixturesForDay
      (fun q : FixturesQuery => match q with
        | .byDate _ => (.error () : Except Unit (List RawFixture))
        | .byRange _ _ => .ok [⟨1, none, 2, none, none, none, none, none, none, none⟩])
      5
      = [⟨1, none, 2, none, none, none, none, none, none, none⟩] :=
  (fetchFixturesForDay_fallback _ 5).2 (Or.inr rfl)

/-- C6: each of the four statistics fields, when missing, is replaced by
    its fixed fallback (1.2 for home goals-for, 1.0 for home
    goals-against, 1.1 for away goals-for, 1.1 for away goals-against) —
    computing with the field absent equals computing with the fallback
    value in its place — and the worked example (home for 2.0 / against
    1.0 at home, away for 1.0 / against 1.0 away) gives lambdaHome = 1.5
    and lambdaAway = 1.0. -/
theorem baseLambdas_defaults :
    (∀ (s : TeamStats) (A : Option TeamStats),
      baseLambdas (some { s with forHome := none }) A
        = baseLambdas (some { s with forHome := some (12/10) }) A) ∧
    (∀ (s : TeamStats) (A : Option TeamStats),
      baseLambdas (some { s with againstHome := none }) A
        = baseLambdas (some { s with againstHome := some 1 }) A) ∧
    (∀ (H : Option TeamStats) (s : TeamStats),
      baseLambdas H (some { s with forAway := none })
        = baseLambdas H (some { s with forAway := some (11/10) })) ∧
    (∀ (H : Option TeamStats) (s : TeamStats),
      baseLambdas H (some { s with againstAway := none })
        = baseLambdas H (some { s with againstAway := some (11/10) })) ∧
    baseLambdas (some ⟨some 2, some 1, none, none⟩)
        (some ⟨none, none, some 1, some 1⟩) = (3/2, 1) := by
  refine ⟨?_, ?_, ?_, ?_, ?_⟩ <;>
    · intros
      norm_num [baseLambdas, hGF, hGA, aGF, aGA, numOr]

/-- C10: a league filter that parses to 0 or to NaN behaves exactly like
    an absent filter: same cache key, same (unfiltered) match list, and a
    null meta.leagueFilter. -/
theorem dayView_falsy_filter (fixtures : List RawFixture) (day : String) :
    getDayView fixtures day (some (.num 0)) = getDayView fixtures day none ∧
    getDayView fixtures day (some .nan) = getDayView fixtures day none ∧
    (getDayView fixtures day none).2.2 = none := by
  refine ⟨?_, ?_, ?_⟩ <;> simp [getDayView, truthy]

/-- C2 is violated: when the injuries entry is cached and fresh but the
    lineups entry is a cache miss, the handler still takes the cached
    branch — the guard `cInj && cLin !== undefined` holds because getCache
    returns null (never undefined) on a miss — and responds with
    lineupsConfirmed = null, ignoring both upstream fetches, instead of
    fetching and returning a boolean. -/
theorem details_cached_null_lineups :
    ∀ (fetchInj : Except Unit (List Injury))
      (fetchLin : Except Unit (List Unit)),
      getFixtureDetails (some [⟨7⟩]) none fetchInj fetchLin
        = ([⟨7⟩], none) := by
  intro fetchInj fetchLin
  rfl

namespace LolloBet

theorem fact_pos (k : Nat) : 0 < fact k := by
  induction k using fact.induct <;> simp_all [fact]

theorem wpois_pos {l : ℚ} (hl : 0 < l) (k : Nat) : 0 < wpois l k := by
  have hf : (0 : ℚ) < (fact k : ℚ) := by exact_mod_cast fact_pos k
  exact div_pos (pow_pos hl k) hf

/-- The three buckets partition the 121-cell grid. -/
theorem bucket_sum (lh la : ℚ) :
    bucketH lh la + bucketD lh la + bucketA lh la
      = ∑ gh ∈ Finset.range 11, ∑ ga ∈ Finset.range 11,
          wpois lh gh * wpois la ga := by
  rw [bucketH, bucketD, bucketA, ← Finset.sum_add_distrib,
    ← Finset.sum_add_distrib]
  refine Finset.sum_congr rfl fun gh _ => ?_
  rw [← Finset.sum_add_distrib, ← Finset.sum_add_distrib]
  refine Finset.sum_congr rfl fun ga _ => ?_
  rcases lt_trichotomy ga gh with h | h | h
  · rw [if_pos h, if_neg (by omega), if_neg (by omega)]
    ring
  · rw [if_neg (by omega), if_pos (by omega), if_neg (by omega)]
    ring
  · rw [if_neg (by omega), if_neg (by omega), if_pos (by omega)]
    ring

theorem grid_sum_pos {lh la : ℚ} (hlh : 0 < lh) (hla : 0 < la) :
    0 < ∑ gh ∈ Finset.range 11, ∑ ga ∈ Finset.range 11,
          wpois lh gh * wpois la ga := by
  refine Finset.sum_pos (fun gh _ => ?_) ⟨0, by simp⟩
  refine Finset.sum_pos (fun ga _ => ?_) ⟨0, by simp⟩
  exact mul_pos (wpois_pos hlh gh) (wpois_pos hla ga)

theorem round1_err (x : ℚ) : |round1 x - x| ≤ 1 / 20 := by
  have h := abs_sub_round (x * 10)
  rw [round1]
  have : (round (x * 10) : ℚ) / 10 - x = ((round (x * 10) : ℚ) - x * 10) / 10 := by
    ring
  rw [this, abs_div, abs_sub_comm]
  rw [show |(10 : ℚ)| = 10 by norm_num]
  linarith

end LolloBet

/-- C9: for every pair of positive lambdas, the three rounded, normalized
    outcome percentages sum to 100 within 0.3 (they are each within 0.05
    of exact percentages that sum to exactly 100). -/
theorem probTriple_sum_near_100 (lh la : ℚ) (hlh : 0 < lh) (hla : 0 < la) :
    |(probTriple lh la).1 + (probTriple lh la).2.1 + (probTriple lh la).2.2
      - 100| ≤ 3 / 10 := by
  set S : ℚ := ∑ gh ∈ Finset.range 11, ∑ ga ∈ Finset.range 11,
      wpois lh gh * wpois la ga with hS
  have hpos : 0 < S := grid_sum_pos hlh hla
  have hsum : bucketH lh la + bucketD lh la + bucketA lh la = S :=
    bucket_sum lh la
  have htot : totOr1 lh la = S := by
    rw [totOr1, hsum]
    exact if_neg (ne_of_gt hpos)
  have hx : bucketH lh la / S * 100 + bucketD lh la / S * 100
      + bucketA lh la / S * 100 = 100 := by
    field_simp
    linarith [hsum]
  have e1 := round1_err (bucketH lh la / S * 100)
  have e2 := round1_err (bucketD lh la / S * 100)
  have e3 := round1_err (bucketA lh la / S * 100)
  have hp : probTriple lh la
      = (round1 (bucketH lh la / S * 100),
         round1 (bucketD lh la / S * 100),
         round1 (bucketA lh la / S * 100)) := by
    rw [probTriple, htot]
  rw [hp]
  simp only
  rw [abs_le] at e1 e2 e3 ⊢
  constructor <;> linarith

/-- Witness for C9 at lh = la = 1. -/
theorem probTriple_sum_near_100_witness :
    |(probTriple 1 1).1 + (probTriple 1 1).2.1 + (probTriple 1 1).2.2
      - 100| ≤ 3 / 10 :=
  probTriple_sum_near_100 1 1 (by norm_num) (by norm_num)

/-- C1 counterexample: the fixture lookup succeeds, the home-statistics
    fetch fails (cache miss), and the call surfaces an internal error
    rather than returning a PredictionResult — the statistics fetches of
    step 2 have no try/catch of their own. -/
theorem predict_stats_failure_is_error :
    predict (.ok (some ⟨1, 2, 3, 4, 5⟩)) none none (.error ()) (.ok none)
      (.ok []) = .error .internal := rfl

/-- C1 amended: a failure of the injuries fetch (step 4) is absorbed and
    the prediction still completes, as does an absent statistics snapshot
    from a successful call; but a failing team-statistics fetch (step 2,
    home or away side, on a cache miss) is not absorbed — it surfaces as
    a top-level error, alongside fixture-not-found and a failing fixture
    lookup. -/
theorem predict_failure_semantics :
    (∀ (f : Fixture) (cH cA : Option TeamStats) (sH sA : Option TeamStats)
        (injRes : Except Unit (List Injury)),
      (predict (.ok (some f)) cH cA (.ok sH) (.ok sA) injRes).isOk = true) ∧
    (∀ (f : Fixture) (cA : Option TeamStats)
        (fA : Except Unit (Option TeamStats))
        (injRes : Except Unit (List Injury)),
      predict (.ok (some f)) none cA (.error ()) fA injRes
        = .error .internal) ∧
    (∀ (f : Fixture) (sH : Option TeamStats)
        (injRes : Except Unit (List Injury)),
      predict (.ok (some f)) none none (.ok sH) (.error ()) injRes
        = .error .internal) ∧
    (∀ (cH cA : Option TeamStats) (fH fA : Except Unit (Option TeamStats))
        (injRes : Except Unit (List Injury)),
      predict (.ok none) cH cA fH fA injRes = .error .notFound) ∧
    (∀ (cH cA : Option TeamStats) (fH fA : Except Unit (Option TeamStats))
        (injRes : Except Unit (List Injury)),
      predict (.error ()) cH cA fH fA injRes = .error .internal) := by
  refine ⟨?_, ?_, ?_, ?_, ?_⟩
  · intro f cH cA sH sA injRes
    cases cH <;> cases cA <;> rfl
  · intro f cA fA injRes
    rfl
  · intro f sH injRes
    rfl
  · intro cH cA fH fA injRes
    rfl
  · intro cH cA fH fA injRes
    rfl

namespace LolloBet

/-- Every member of the grouping result has a key outside `seen` and is
    built from the first fixture in the input carrying its key. -/
theorem dedup_mem_spec (l : List RawFixture) :
    ∀ (seen : List (Nat × Option Nat)) (x : LeagueSummary),
      x ∈ dedupLeagues l seen →
      leagueKey x ∉ seen ∧
      ∃ f, l.find? (fun g => decide (g.leagueId ≠ 0) &&
             decide ((g.leagueId, g.season) = leagueKey x)) = some f ∧
           x = mkLeague f := by
  induction l with
  | nil =>
    intro seen x hx
    simp [dedupLeagues] at hx
  | cons f rest ih =>
    intro seen x hx
    by_cases h0 : f.leagueId = 0
    · rw [dedupLeagues, if_pos h0] at hx
      obtain ⟨hns, f', hf', hx'⟩ := ih seen x hx
      refine ⟨hns, f', ?_, hx'⟩
      rw [List.find?_cons_of_neg _ (by simp [h0]), hf']
    · by_cases hseen : (f.leagueId, f.season) ∈ seen
      · rw [dedupLeagues, if_neg h0, if_pos hseen] at hx
        obtain ⟨hns, f', hf', hx'⟩ := ih seen x hx
        have hne : ¬ ((f.leagueId, f.season) = leagueKey x) := by
          intro h
          exact hns (h ▸ hseen)
        refine ⟨hns, f', ?_, hx'⟩
        rw [List.find?_cons_of_neg _ (by simp [hne]), hf']
      · rw [dedupLeagues, if_neg h0, if_neg hseen] at hx
        rcases List.mem_cons.mp hx with hx | hx
        · subst hx
          refine ⟨hseen, f, ?_, rfl⟩
          rw [List.find?_cons_of_pos _ (by simp [h0, leagueKey, mkLeague])]
        · obtain ⟨hns, f', hf', hx'⟩ := ih _ x hx
          have hnotf : ¬ ((f.leagueId, f.season) = leagueKey x) := by
            intro h
            exact hns (by rw [← h]; exact List.mem_cons_self _ _)
          refine ⟨fun hmem => hns (List.mem_cons_of_mem _ hmem), f', ?_, hx'⟩
          rw [List.find?_cons_of_neg _ (by simp [hnotf]), hf']

/-- The grouping result has pairwise distinct (leagueId, season) keys. -/
theorem dedup_pairwise_keys (l : List RawFixture) :
    ∀ seen, (dedupLeagues l seen).Pairwise
      (fun a b => leagueKey a ≠ leagueKey b) := by
  induction l with
  | nil =>
    intro seen
    simp [dedupLeagues]
  | cons f rest ih =>
    intro seen
    by_cases h0 : f.leagueId = 0
    · rw [dedupLeagues, if_pos h0]
      exact ih seen
    · by_cases hseen : (f.leagueId, f.season) ∈ seen
      · rw [dedupLeagues, if_neg h0, if_pos hseen]
        exact ih seen
      · rw [dedupLeagues, if_neg h0, if_neg hseen]
        refine List.Pairwise.cons (fun y hy hEq => ?_) (ih _)
        have hns := (dedup_mem_spec rest _ y hy).1
        apply hns
        rw [← hEq]
        exact List.mem_cons_self _ _

/-- The comparator is total. -/
theorem leagueLE_total (a b : LeagueSummary) :
    leagueLE a b || leagueLE b a := by
  simp only [leagueLE, Bool.or_eq_true, Bool.and_eq_true, decide_eq_true_eq]
  rcases lt_trichotomy (a.country.getD "") (b.country.getD "") with h | h | h
  · exact Or.inl (Or.inl h)
  · rcases le_total (a.name.getD "") (b.name.getD "") with hn | hn
    · exact Or.inl (Or.inr ⟨h, hn⟩)
    · exact Or.inr (Or.inr ⟨h.symm, hn⟩)
  · exact Or.inr (Or.inl h)

/-- The comparator is transitive. -/
theorem leagueLE_trans (a b c : LeagueSummary) :
    leagueLE a b → leagueLE b c → leagueLE a c := by
  simp only [leagueLE, Bool.or_eq_true, Bool.and_eq_true, decide_eq_true_eq]
  rintro (hab | ⟨hab, hnab⟩) (hbc | ⟨hbc, hnbc⟩)
  · exact Or.inl (lt_trans hab hbc)
  · exact Or.inl (hbc ▸ hab)
  · exact Or.inl (hab ▸ hbc)
  · exact Or.inr ⟨hab.trans hbc, le_trans hnab hnbc⟩

end LolloBet

/-- C7: the league list built for a day deduplicates fixtures by
    (leagueId, season) — its keys are pairwise distinct — keeps the
    first-seen name and country per group — each entry is built from the
    first fixture of the input with a non-falsy league id and that key —
    and is non-decreasing under the (country, name) order with a missing
    country (or name) compared as the empty string. -/
theorem buildLeagues_dedup_sorted (fixtures : List RawFixture) :
    (buildLeaguesForDay fixtures).Pairwise (fun a b => leagueLE a b = true) ∧
    (buildLeaguesForDay fixtures).Pairwise
      (fun a b => leagueKey a ≠ leagueKey b) ∧
    ∀ x ∈ buildLeaguesForDay fixtures,
      ∃ f, fixtures.find? (fun g => decide (g.leagueId ≠ 0) &&
             decide ((g.leagueId, g.season) = leagueKey x)) = some f ∧
           x = mkLeague f := by
  refine ⟨?_, ?_, ?_⟩
  · exact List.sorted_mergeSort leagueLE_trans leagueLE_total _
  · exact (List.Perm.pairwise_iff (fun h => Ne.symm h)
      (List.mergeSort_perm _ _)).mpr (dedup_pairwise_keys fixtures [])
  · intro x hx
    rw [buildLeaguesForDay, List.mem_mergeSort] at hx
    exact (dedup_mem_spec fixtures [] x hx).2

/-- Witness for C7: the single-fixture day [league 5, season 2024]
    produces that league's summary, traced to its first (only) fixture. -/
theorem buildLeagues_dedup_sorted_witness :
    ∃ f, [(⟨1, none, 5, none, none, some 2024, none, none, none, none⟩ :
            RawFixture)].find?
        (fun g => decide (g.leagueId ≠ 0) &&
          decide ((g.leagueId, g.season)
            = leagueKey ⟨5, none, none, some 2024⟩)) = some f ∧
      (⟨5, none, none, some 2024⟩ : LeagueSummary) = mkLeague f :=
  (buildLeagues_dedup_sorted
      [⟨1, none, 5, none, none, some 2024, none, none, none, none⟩]).2.2
    ⟨5, none, none, some 2024⟩
    (by simp only [buildLeaguesForDay, List.mem_mergeSort]; decide)
